import Mathlib

/-!
Verification of the browser-side Playback and Notification Engine
(PlayerView, playlist control view and playerStatus composable).

The definitions below are a shallow embedding of the TypeScript source:
pure computations become Lean functions, the stateful controller becomes an
explicit state structure with a step function over discrete events, and the
asynchronous fetch-and-decode routine becomes an oracle parameter of type
String to Option Int (some d meaning a successful decode with loudness d,
none meaning a decode failure).
-/

namespace YumiPlayer

/-! ## Loudness normalization (PlayerView: calculateDBFS / calculateVolumeLevel) -/

/-- The fixed fallback loudness figure used by calculateDBFS for an empty URL
or a failed decode (fallbackDbFS = -10 in the source). -/
def fallbackDbFS : Int := -10

/-- Lookup in the session loudness cache, modelling dbFSCache.has/get on the
JS Map with string keys. The cache is an association list; calculateDBFS only
inserts a key that is absent, so first-match lookup is faithful. -/
def cacheLookup : List (String × Int) → String → Option Int
  | [], _ => none
  | (k, v) :: rest, url => if k = url then some v else cacheLookup rest url

/-- Result of one calculateDBFS call: the returned loudness figure, the cache
after the call, and whether the fetch-and-decode routine was invoked. -/
structure DBFSResult where
  dbFS : Int
  cache : List (String × Int)
  decoded : Bool
deriving DecidableEq, Repr

/-- One call of calculateDBFS(url). Mirrors the source: a cache hit returns
the cached figure without decoding; an empty URL returns the fallback figure
without decoding; otherwise the audio is fetched and decoded (the decode
oracle), a successful decode is rounded server-side into an integer figure
which is cached and returned, and a failed decode returns the fallback
figure and caches nothing. -/
def calculateDBFS (decode : String → Option Int) (cache : List (String × Int))
    (url : String) : DBFSResult :=
  match cacheLookup cache url with
  | some v => ⟨v, cache, false⟩
  | none =>
    if url = "" then ⟨fallbackDbFS, cache, false⟩
    else
      match decode url with
      | some d => ⟨d, (url, d) :: cache, true⟩
      | none => ⟨fallbackDbFS, cache, true⟩

/-- Per-call decode-invocation flags of a sequence of calculateDBFS calls:
for each requested URL in order, whether that call invoked the
fetch-and-decode routine, threading the cache through the calls. -/
def decodeFlags (decode : String → Option Int) :
    List (String × Int) → List String → List (String × Bool)
  | _, [] => []
  | cache, u :: us =>
    let r := calculateDBFS decode cache u
    (u, r.decoded) :: decodeFlags decode r.cache us

/-- The gain computed by calculateVolumeLevel from a measured loudness figure
and the configured target loudness: attenuate by 10 ^ ((target - dbFS) / 20)
when the measured loudness exceeds the target, otherwise gain 1. -/
noncomputable def calculateVolumeLevel (dbFS targetDbFS : ℝ) : ℝ :=
  if targetDbFS < dbFS then (10 : ℝ) ^ ((targetDbFS - dbFS) / 20) else 1

/-- Concrete decode oracle used to instantiate the cache theorem: URL "u"
decodes to -20, every other URL fails. -/
def decodeW : String → Option Int := fun s => if s = "u" then some (-20) else none

/-! ## Playback recovery controller (PlayerView: handlePlayError, retry timer,
watch(musicUrl)) -/

/-- Classification of a local playback error by the regular expressions in
handlePlayError: an autoplay rejection matches the user-interaction pattern;
a benign error matches the empty-src / no-supported-sources /
interrupted-by-new-load patterns; every other error is real. -/
inductive ErrorKind where
  | autoplay
  | benign
  | real
deriving DecidableEq, Repr

/-- The controller-relevant mutable state of PlayerView: the retry budget,
whether a retry timeout is currently scheduled, the autoplay-gesture flag,
the mirrored authoritative paused flag (none before the first snapshot), the
current track id, the current track URL, the list of track ids sent so far
in next commands, counters of messages reported to the application logger
and to the console, and the number of play attempts issued. -/
structure ControllerState where
  retryCount : Nat
  pendingRetry : Bool
  autoplayNeedGuesture : Bool
  paused : Option Bool
  currentId : Option Nat
  musicUrl : String
  sentNext : List Nat
  loggedErrors : Nat
  consoleErrors : Nat
  playAttempts : Nat
deriving DecidableEq, Repr

/-- The recovery tail of handlePlayError shared by benign and real errors:
with a positive retry budget, clear any pending retry timeout and schedule a
new one; with the budget exhausted, send a next command carrying the current
track id when a current track exists. -/
def recoverStep (s : ControllerState) : ControllerState :=
  if s.retryCount > 0 then { s with pendingRetry := true }
  else
    match s.currentId with
    | some i => { s with sentNext := s.sentNext ++ [i] }
    | none => s

/-- handlePlayError: an autoplay rejection is reported to the logger and sets
the gesture flag; otherwise the error is logged (to the application logger
when real, to the console when benign) and the recovery tail runs in both
cases. -/
def handlePlayError (s : ControllerState) (k : ErrorKind) : ControllerState :=
  match k with
  | .autoplay => { s with autoplayNeedGuesture := true, loggedErrors := s.loggedErrors + 1 }
  | .benign => recoverStep { s with consoleErrors := s.consoleErrors + 1 }
  | .real => recoverStep { s with loggedErrors := s.loggedErrors + 1 }

/-- The scheduled retry timeout fires: the budget is decremented and playback
is reattempted only when the authoritative paused flag is exactly false. -/
def retryFire (s : ControllerState) : ControllerState :=
  if s.pendingRetry then
    let s1 : ControllerState :=
      { s with pendingRetry := false, retryCount := s.retryCount - 1 }
    if s1.paused = some false then { s1 with playAttempts := s1.playAttempts + 1 } else s1
  else s

/-- The watch(musicUrl) callback on a change of the current track URL: the
retry budget is reset to 3. The volume update it also triggers lives in the
loudness model above. -/
def urlChange (s : ControllerState) (url : String) : ControllerState :=
  { s with musicUrl := url, retryCount := 3 }

/-- Discrete events driving the controller: a playback error of a given
kind, the firing of the scheduled retry timeout, and a change of the current
track URL. -/
inductive ControllerEvent where
  | playError (k : ErrorKind)
  | retryTimerFire
  | trackUrlChange (url : String)

/-- One controller step. -/
def controllerStep (s : ControllerState) : ControllerEvent → ControllerState
  | .playError k => handlePlayError s k
  | .retryTimerFire => retryFire s
  | .trackUrlChange u => urlChange s u

/-- Run the controller over a sequence of events. -/
def runController (s : ControllerState) : List ControllerEvent → ControllerState
  | [] => s
  | e :: es => runController (controllerStep s e) es

/-- A real error followed by the firing of the retry timeout it scheduled. -/
def errThenFire : List ControllerEvent :=
  [.playError .real, .retryTimerFire]

/-- Concrete controller state with a fresh retry budget, playing (paused
flag false) on track id 7. -/
def freshState : ControllerState :=
  ⟨3, false, false, some false, some 7, "u", [], 0, 0, 0⟩

/-! ## Snapshot handling in the PlayerWs callback of PlayerView -/

/-- Actions the PlayerWs callback can take against the audio element and the
notification queue after mirroring a snapshot. -/
inductive WsAct where
  | play
  | pause
  | seek
  | showEvent
deriving DecidableEq, Repr

/-- The action part of the PlayerWs callback of PlayerView, after the
snapshot has been mirrored into local state: a message whose command is
progress returns early; otherwise, when the audio element exists, play is
invoked when the snapshot paused flag is false and the element is paused,
pause is invoked when the flag is set and the element is playing, and seek
and show-event commands dispatch their actions. Inputs: the accompanying
command tag (none when the message carries no command), the snapshot paused
flag, and the paused state of the audio element (none when the element does
not exist). -/
def wsSnapshotActions (cmd : Option String) (snapPaused : Bool)
    (audioPaused : Option Bool) : List WsAct :=
  if cmd = some "progress" then []
  else
    match audioPaused with
    | none => []
    | some ap =>
      (if !snapPaused && ap then [WsAct.play]
       else if snapPaused && !ap then [WsAct.pause]
       else []) ++
      (if cmd = some "seek" then [WsAct.seek] else []) ++
      (if cmd = some "show-event" then [WsAct.showEvent] else [])

/-! ## Notification queue (PlayerView: pushStatusMessage / handleEvent)

The queue logic reads only the type and the query field of an event; the
fields used to build the display text (user, keywords, reason, title,
source) and the text itself are not modelled. -/

/-- The part of a player event record read by the queue logic: the event
type tag and the query field (none when the event carries no query, which in
the source is an undefined field and compares equal to another undefined
field). -/
structure EventV where
  type : String
  query : Option String
deriving DecidableEq, Repr

/-- Severity of a status message. -/
inductive Sev where
  | info
  | success
  | error
deriving DecidableEq, Repr

/-- A queued status message: severity, the source event, and the optional
per-message timeout (none means the default of 3000 ms applies). -/
structure StatusMessage where
  sev : Sev
  event : EventV
  timeout : Option Nat
deriving DecidableEq, Repr

/-- The effective eviction timeout of a message, modelling the expression
that falls back to 3000 when no timeout is set. -/
def effectiveTimeout (m : StatusMessage) : Nat := m.timeout.getD 3000

/-- Index of the first queued message with the given event type and the
given query, modelling the findIndex calls of replaceSearching and
replaceLoading. -/
def findMsgIdx (ty : String) (q : Option String) : List StatusMessage → Option Nat
  | [] => none
  | m :: rest =>
    if m.event.type = ty ∧ m.event.query = q then some 0
    else (findMsgIdx ty q rest).map (fun i => i + 1)

/-- replaceSearching of handleEvent: look for a searching message with the
same query as the incoming event; when it sits at the head, report a replace
(the removal is then performed by the replace transition of
pushStatusMessage); when it sits elsewhere, remove it silently; report no
replace otherwise. Returns the replace flag and the queue after the silent
removal, if any. -/
def replaceSearching (e : EventV) (msgs : List StatusMessage) :
    Bool × List StatusMessage :=
  match findMsgIdx "searching" e.query msgs with
  | some 0 => (true, msgs)
  | some (i + 1) => (false, msgs.eraseIdx (i + 1))
  | none => (false, msgs)

/-- replaceLoading of handleEvent: same as replaceSearching but looking for
a query-loading message. -/
def replaceLoading (e : EventV) (msgs : List StatusMessage) :
    Bool × List StatusMessage :=
  match findMsgIdx "query-loading" e.query msgs with
  | some 0 => (true, msgs)
  | some (i + 1) => (false, msgs.eraseIdx (i + 1))
  | none => (false, msgs)

/-- Final queue after pushStatusMessage: on a replace with a non-empty
queue, the new message is spliced in at position 1 and the old head is
dropped after a short crossfade interval, so the new message ends up as
head in front of the old tail; otherwise the message is appended at the
tail. -/
def pushStatusMessage (msgs : List StatusMessage) (m : StatusMessage)
    (replaceLatest : Bool) : List StatusMessage :=
  match replaceLatest, msgs with
  | true, _ :: t => m :: t
  | _, _ => msgs ++ [m]

/-- The observable queue states of one pushStatusMessage call, in order: on
a replace with non-empty queue, the queue before the call, the queue with
the new message spliced in at position 1, and the queue after the old head
is dropped; otherwise the queue before and after the append. -/
def pushStatusMessageStates (msgs : List StatusMessage) (m : StatusMessage)
    (replaceLatest : Bool) : List (List StatusMessage) :=
  match replaceLatest, msgs with
  | true, h :: t => [h :: t, h :: m :: t, m :: t]
  | _, _ => [msgs, msgs ++ [m]]

/-- Dispatch of handleEvent on the incoming event type: computes the queue
after any silent removals, the message to push (severity and timeout as in
the source: searching 3000, query-loading 5000, query-success and query-fail
6000, the other event kinds the default), and the replace flag passed to
pushStatusMessage. The short-circuit of the disjunction in the source is
kept: when replaceSearching reports a head match, replaceLoading does not
run. Returns none for an unknown event type. -/
def dispatchEvent (msgs : List StatusMessage) (e : EventV) :
    Option (List StatusMessage × StatusMessage × Bool) :=
  if e.type = "searching" then
    some (msgs, ⟨Sev.info, e, some 3000⟩, false)
  else if e.type = "query-loading" then
    let p := replaceSearching e msgs
    some (p.2, ⟨Sev.info, e, some 5000⟩, p.1)
  else if e.type = "query-success" then
    let p1 := replaceSearching e msgs
    let p := if p1.1 then p1 else replaceLoading e p1.2
    some (p.2, ⟨Sev.success, e, some 6000⟩, p.1)
  else if e.type = "query-fail" then
    let p1 := replaceSearching e msgs
    let p := if p1.1 then p1 else replaceLoading e p1.2
    some (p.2, ⟨Sev.error, e, some 6000⟩, p.1)
  else if e.type = "cancel-fail" then
    some (msgs, ⟨Sev.error, e, none⟩, false)
  else if e.type = "cancel-success" then
    some (msgs, ⟨Sev.success, e, none⟩, false)
  else if e.type = "skip-fail" then
    some (msgs, ⟨Sev.error, e, none⟩, false)
  else if e.type = "skip-success" then
    some (msgs, ⟨Sev.success, e, none⟩, false)
  else if e.type = "request-fail" then
    let p := replaceSearching e msgs
    some (p.2, ⟨Sev.error, e, none⟩, p.1)
  else none

/-- Final queue after handleEvent processes one incoming event. -/
def handleEvent (msgs : List StatusMessage) (e : EventV) : List StatusMessage :=
  match dispatchEvent msgs e with
  | some (ms, m, r) => pushStatusMessage ms m r
  | none => msgs

/-- The observable queue states while handleEvent processes one incoming
event (the states of its pushStatusMessage call). -/
def handleEventStates (msgs : List StatusMessage) (e : EventV) :
    List (List StatusMessage) :=
  match dispatchEvent msgs e with
  | some (ms, m, r) => pushStatusMessageStates ms m r
  | none => [msgs]

/-- A searching event with query "A". -/
def searchingA : EventV := ⟨"searching", some "A"⟩

/-- A request-fail event with query "A". -/
def requestFailA : EventV := ⟨"request-fail", some "A"⟩

/-- A query-loading event with query "A". -/
def loadingA : EventV := ⟨"query-loading", some "A"⟩

/-- A query-success event with query "A". -/
def successA : EventV := ⟨"query-success", some "A"⟩

/-- The queued message produced for the searching event with query "A". -/
def msgSearchingA : StatusMessage := ⟨Sev.info, searchingA, some 3000⟩

/-- A queued query-loading message with query "A". -/
def msgLoadingA : StatusMessage := ⟨Sev.info, loadingA, some 5000⟩

/-! ## Optimistic-update suppression window (playlist control view and the
usePlayerStatus composable) -/

/-- A playlist entry as compared by the playlist control view: its id and
its progress. The remaining entry fields do not matter for the claims and
are omitted; the JSON comparison in the source is equality of the lists. -/
structure SongEntryM where
  id : Nat
  progress : Nat
deriving DecidableEq, Repr

/-- An incoming push-channel message as seen by the playlist control view:
the optional command tag, the snapshot combined list and the snapshot
current track id. -/
structure PlaylistMsg where
  cmd : Option String
  combined_list : List SongEntryM
  currentId : Option Nat
deriving DecidableEq, Repr

/-- The local state of the playlist control view: the locally-held combined
list used for rendering and the mirrored current track id (derived from the
playerStatus mirror of the composable). -/
structure PlaylistLocal where
  combinedList : List SongEntryM
  mirroredCurrentId : Option Nat
deriving DecidableEq, Repr

/-- The handler run for each incoming message: the usePlayerStatus
composable first mirrors the snapshot wholesale (so the mirrored current
track always updates); then the view callback returns early, leaving the
local combined list alone, when the window is active and the command tag is
status or progress (a missing command counts as the empty tag); otherwise
the snapshot combined list replaces the local one when it differs. -/
def playlistOnCommand (now suppressStatusUntil : Nat) (st : PlaylistLocal)
    (msg : PlaylistMsg) : PlaylistLocal :=
  let st1 : PlaylistLocal := { st with mirroredCurrentId := msg.currentId }
  if now < suppressStatusUntil ∧
      (msg.cmd.getD "" = "status" ∨ msg.cmd.getD "" = "progress") then st1
  else if msg.combined_list ≠ st1.combinedList then
    { st1 with combinedList := msg.combined_list }
  else st1

/-- The delta classification named by the spec: the snapshot differs from
local state only in ordering and progress when its combined list carries the
same track ids (possibly reordered, with any progress values) and the same
current track id. -/
def orderingProgressOnlyDelta (msg : PlaylistMsg) (st : PlaylistLocal) : Prop :=
  (msg.combined_list.map SongEntryM.id).Perm (st.combinedList.map SongEntryM.id) ∧
  msg.currentId = st.mirroredCurrentId

/-- Local playlist state holding tracks 1 then 2, with track 1 current. -/
def stCE : PlaylistLocal := ⟨[⟨1, 0⟩, ⟨2, 0⟩], some 1⟩

/-- A message with no command whose snapshot carries the same tracks in the
opposite order and the same current track. -/
def msgCE : PlaylistMsg := ⟨none, [⟨2, 0⟩, ⟨1, 0⟩], some 1⟩

end YumiPlayer

namespace YumiPlayer

theorem cacheLookup_calculateDBFS_mono (decode : String → Option Int)
    (cache : List (String × Int)) (u url : String) (v : Int)
    (h : cacheLookup cache url = some v) :
    cacheLookup (calculateDBFS decode cache u).cache url = some v := by
  unfold calculateDBFS
  cases hcu : cacheLookup cache u with
  | some w => simpa using h
  | none =>
    by_cases hu : u = ""
    · simp [hu, h]
    · cases hd : decode u with
      | some d =>
        have hne : u ≠ url := by
          intro he; rw [he] at hcu; rw [hcu] at h; exact Option.noConfusion h
        simp [hu, hd, cacheLookup, hne, h]
      | none => simp [hu, hd, h]

theorem decodeFlags_cons (decode : String → Option Int) (cache : List (String × Int))
    (u : String) (us : List String) :
    decodeFlags decode cache (u :: us) =
      (u, (calculateDBFS decode cache u).decoded) ::
        decodeFlags decode (calculateDBFS decode cache u).cache us := rfl

theorem decodeFlags_cached_zero (decode : String → Option Int) (url : String) :
    ∀ (us : List String) (cache : List (String × Int)) (v : Int),
      cacheLookup cache url = some v →
      (decodeFlags decode cache us).countP (fun p => p.1 == url && p.2) = 0 := by
  intro us
  induction us with
  | nil => intro cache v _; simp [decodeFlags]
  | cons u us ih =>
    intro cache v h
    rw [decodeFlags_cons, List.countP_cons]
    by_cases hu : u = url
    · subst hu
      have hc : calculateDBFS decode cache u = ⟨v, cache, false⟩ := by
        unfold calculateDBFS; rw [h]
      rw [hc]
      simpa using ih cache v h
    · have h2 := cacheLookup_calculateDBFS_mono decode cache u url v h
      have h3 := ih _ v h2
      simp [h3, hu]

theorem decodeFlags_atMostOnce (decode : String → Option Int) (url : String)
    (d : Int) (hd : decode url = some d) :
    ∀ (us : List String) (cache : List (String × Int)),
      (decodeFlags decode cache us).countP (fun p => p.1 == url && p.2) ≤ 1 := by
  intro us
  induction us with
  | nil => intro cache; simp [decodeFlags]
  | cons u us ih =>
    intro cache
    by_cases hu : u = url
    · subst hu
      cases hcu : cacheLookup cache u with
      | some v =>
        have h0 := decodeFlags_cached_zero decode u (u :: us) cache v hcu
        omega
      | none =>
        rw [decodeFlags_cons, List.countP_cons]
        by_cases hue : u = ""
        · have hc : calculateDBFS decode cache u = ⟨fallbackDbFS, cache, false⟩ := by
            unfold calculateDBFS; rw [hcu]; simp [hue]
          rw [hc]
          simpa using ih cache
        · have hc : calculateDBFS decode cache u = ⟨d, (u, d) :: cache, true⟩ := by
            unfold calculateDBFS; rw [hcu]; simp [hue, hd]
          rw [hc]
          have h0 := decodeFlags_cached_zero decode u us ((u, d) :: cache) d
            (by simp [cacheLookup])
          simp [h0]
    · rw [decodeFlags_cons, List.countP_cons]
      have hflag : ((u, (calculateDBFS decode cache u).decoded).1 == url &&
          (u, (calculateDBFS decode cache u).decoded).2) = false := by
        simp [hu]
      rw [hflag]
      simpa using ih (calculateDBFS decode cache u).cache

/-- C1: for every measured loudness figure and configured target, the gain g
computed by calculateVolumeLevel satisfies 0 < g and g ≤ 1; g = 1 whenever
the measured loudness is at most the target (quieter-than-target tracks are
never boosted), and g = 10 ^ ((target - loudness) / 20) when the loudness
exceeds the target. -/
theorem calculateVolumeLevel_spec (dbFS targetDbFS : ℝ) :
    0 < calculateVolumeLevel dbFS targetDbFS ∧
    calculateVolumeLevel dbFS targetDbFS ≤ 1 ∧
    (dbFS ≤ targetDbFS → calculateVolumeLevel dbFS targetDbFS = 1) ∧
    (targetDbFS < dbFS →
      calculateVolumeLevel dbFS targetDbFS = (10 : ℝ) ^ ((targetDbFS - dbFS) / 20)) := by
  unfold calculateVolumeLevel
  by_cases h : targetDbFS < dbFS
  · rw [if_pos h]
    refine ⟨Real.rpow_pos_of_pos (by norm_num) _, ?_, ?_, fun _ => rfl⟩
    · apply Real.rpow_le_one_of_one_le_of_nonpos (by norm_num)
      have : targetDbFS - dbFS ≤ 0 := by linarith
      linarith
    · intro hle; linarith
  · rw [if_neg h]
    exact ⟨one_pos, le_refl 1, fun _ => rfl, fun hlt => absurd hlt h⟩

/-- Witness for C1 at the spec's concrete scenario 2: loudness -50 dB with
target -40 dB gives gain 1. -/
theorem calculateVolumeLevel_spec_witness :
    (-50 : ℝ) ≤ -40 ∧ calculateVolumeLevel (-50) (-40) = 1 :=
  ⟨by norm_num, (calculateVolumeLevel_spec (-50) (-40)).2.2.1 (by norm_num)⟩

/-- C2: the loudness cache is write-once memoization. A call for a cached URL
returns the identical cached value, leaves the cache unchanged, and does not
invoke the fetch-and-decode routine; a cached entry survives any later call;
on decode failure the fallback figure is returned and nothing is cached (so a
later call decodes again); and along any sequence of calls, when decoding the
URL succeeds, the fetch-and-decode routine is invoked at most once for it. -/
theorem calculateDBFS_cache_spec (decode : String → Option Int)
    (cache : List (String × Int)) (url u : String) (us : List String) :
    (∀ v, cacheLookup cache url = some v →
      calculateDBFS decode cache url = ⟨v, cache, false⟩) ∧
    (∀ v, cacheLookup cache url = some v →
      cacheLookup (calculateDBFS decode cache u).cache url = some v) ∧
    (cacheLookup cache url = none → url ≠ "" → decode url = none →
      calculateDBFS decode cache url = ⟨fallbackDbFS, cache, true⟩) ∧
    (∀ d, decode url = some d →
      (decodeFlags decode cache us).countP (fun p => p.1 == url && p.2) ≤ 1) := by
  refine ⟨?_, ?_, ?_, ?_⟩
  · intro v h; unfold calculateDBFS; rw [h]
  · intro v h; exact cacheLookup_calculateDBFS_mono decode cache u url v h
  · intro hmiss hne hfail; unfold calculateDBFS; rw [hmiss]; simp [hne, hfail]
  · intro d hd; exact decodeFlags_atMostOnce decode url d hd us cache

/-- Witness for C2: with a cache holding url "u" at -20 and the concrete
decode oracle decodeW, the cache-hit clause and the at-most-once clause hold
at this instance. -/
theorem calculateDBFS_cache_spec_witness :
    (cacheLookup [("u", -20)] "u" = some (-20) ∧
      calculateDBFS decodeW [("u", -20)] "u" = ⟨-20, [("u", -20)], false⟩) ∧
    (decodeW "u" = some (-20) ∧
      (decodeFlags decodeW [] ["u", "u", "v"]).countP (fun p => p.1 == "u" && p.2) ≤ 1) :=
  ⟨⟨by decide, (calculateDBFS_cache_spec decodeW [("u", -20)] "u" "u" []).1 (-20) (by decide)⟩,
   ⟨by decide, (calculateDBFS_cache_spec decodeW [] "u" "u" ["u", "u", "v"]).2.2.2 (-20)
      (by decide)⟩⟩

end YumiPlayer

namespace YumiPlayer

theorem runController_append (s : ControllerState) (es fs : List ControllerEvent) :
    runController s (es ++ fs) = runController (runController s es) fs := by
  induction es generalizing s with
  | nil => rfl
  | cons e es ih => simp [runController, ih]

/-- C4: after an arbitrary event history, any change of the current track URL
(to any value, independent of the prior count) sets the retry count back
to 3. -/
theorem retryCount_reset_on_urlChange (s : ControllerState)
    (es : List ControllerEvent) (u : String) :
    (runController s (es ++ [ControllerEvent.trackUrlChange u])).retryCount = 3 := by
  rw [runController_append]
  rfl

/-- Counterexample to C3 as stated: from a fresh retry budget on an unchanged
track with the paused flag false, after 3 consecutive real errors (each
followed by its backoff retry) no next command at all has been sent, so the
skip intent has not been issued exactly once. -/
theorem skip_after_three_errors_counterexample :
    ¬ ((runController freshState
        (errThenFire ++ errThenFire ++ errThenFire)).sentNext.length = 1) := by
  decide

/-- C3 amended: from a fresh retry budget (count 3) with the paused flag
false and a current track id i, three consecutive real errors each followed
by its backoff retry exhaust the budget without sending any next command;
the skip intent is sent for the first time on the 4th consecutive real
error, and a 5th consecutive real error without an intervening track change
sends a second next command for the same track. -/
theorem skip_on_fourth_error (s : ControllerState) (i : Nat)
    (h3 : s.retryCount = 3) (hp : s.paused = some false) (hc : s.currentId = some i) :
    (runController s (errThenFire ++ errThenFire ++ errThenFire)).sentNext = s.sentNext ∧
    (runController s (errThenFire ++ errThenFire ++ errThenFire)).retryCount = 0 ∧
    (runController s (errThenFire ++ errThenFire ++ errThenFire ++
        [ControllerEvent.playError ErrorKind.real])).sentNext = s.sentNext ++ [i] ∧
    (runController s (errThenFire ++ errThenFire ++ errThenFire ++
        [ControllerEvent.playError ErrorKind.real,
         ControllerEvent.playError ErrorKind.real])).sentNext = s.sentNext ++ [i, i] := by
  simp [errThenFire, runController, controllerStep, handlePlayError, recoverStep,
    retryFire, h3, hp, hc]

/-- Witness for C3 amended at the concrete fresh state on track 7. -/
theorem skip_on_fourth_error_witness :
    (freshState.retryCount = 3 ∧ freshState.paused = some false ∧
      freshState.currentId = some 7) ∧
    ((runController freshState (errThenFire ++ errThenFire ++ errThenFire)).sentNext =
        freshState.sentNext ∧
      (runController freshState (errThenFire ++ errThenFire ++ errThenFire)).retryCount = 0 ∧
      (runController freshState (errThenFire ++ errThenFire ++ errThenFire ++
          [ControllerEvent.playError ErrorKind.real])).sentNext = freshState.sentNext ++ [7] ∧
      (runController freshState (errThenFire ++ errThenFire ++ errThenFire ++
          [ControllerEvent.playError ErrorKind.real,
           ControllerEvent.playError ErrorKind.real])).sentNext =
        freshState.sentNext ++ [7, 7]) :=
  ⟨⟨rfl, rfl, rfl⟩, skip_on_fourth_error freshState 7 rfl rfl rfl⟩

/-- Counterexample to C5 as stated: a benign error does not leave the
recovery state untouched. With a fresh budget it schedules a retry timeout,
and with an exhausted budget it sends a next command for the current
track. -/
theorem benign_no_recovery_counterexample :
    ¬ ((handlePlayError freshState ErrorKind.benign).pendingRetry =
        freshState.pendingRetry ∧
      (handlePlayError { freshState with retryCount := 0 } ErrorKind.benign).sentNext =
        ({ freshState with retryCount := 0 } : ControllerState).sentNext) := by
  decide

/-- C5 amended: a benign playback error is logged to the console rather than
reported to the application logger and never sets the autoplay-gesture flag,
but the handler performs the same recovery as for a real error: it schedules
a retry when the budget is positive and otherwise sends a next command when
a current track exists. -/
theorem handlePlayError_benign_spec (s : ControllerState) :
    (handlePlayError s ErrorKind.benign).pendingRetry =
      (handlePlayError s ErrorKind.real).pendingRetry ∧
    (handlePlayError s ErrorKind.benign).retryCount =
      (handlePlayError s ErrorKind.real).retryCount ∧
    (handlePlayError s ErrorKind.benign).sentNext =
      (handlePlayError s ErrorKind.real).sentNext ∧
    (handlePlayError s ErrorKind.benign).consoleErrors = s.consoleErrors + 1 ∧
    (handlePlayError s ErrorKind.benign).loggedErrors = s.loggedErrors ∧
    (handlePlayError s ErrorKind.benign).autoplayNeedGuesture = s.autoplayNeedGuesture := by
  unfold handlePlayError recoverStep
  by_cases h : s.retryCount > 0
  · simp [h]
  · cases hc : s.currentId <;> simp [h, hc]

end YumiPlayer

namespace YumiPlayer

theorem pushStatusMessage_no_replace (msgs : List StatusMessage) (m : StatusMessage) :
    pushStatusMessage msgs m false = msgs ++ [m] := by
  cases msgs <;> rfl

theorem pushStatusMessage_replace_cons (h : StatusMessage) (t : List StatusMessage)
    (m : StatusMessage) :
    pushStatusMessage (h :: t) m true = m :: t := rfl

/-- Counterexample to C6 as stated: a snapshot accompanied by a progress
command is not reconciled. With the snapshot paused flag false and the audio
element paused, the handler invokes no play action. -/
theorem wsSnapshot_progress_counterexample :
    ¬ (WsAct.play ∈ wsSnapshotActions (some "progress") false (some true)) := by
  decide

/-- C6 amended: for every incoming message not accompanied by a progress
command, when the audio element exists the handler reconciles it to the
snapshot paused flag: play is invoked exactly when the flag is false and the
element is paused, and pause exactly when the flag is set and the element is
playing. -/
theorem wsSnapshot_reconcile_spec (cmd : Option String) (sp ap : Bool)
    (hc : cmd ≠ some "progress") :
    (WsAct.play ∈ wsSnapshotActions cmd sp (some ap) ↔ (sp = false ∧ ap = true)) ∧
    (WsAct.pause ∈ wsSnapshotActions cmd sp (some ap) ↔ (sp = true ∧ ap = false)) := by
  unfold wsSnapshotActions
  rw [if_neg hc]
  by_cases h1 : cmd = some "seek" <;> by_cases h2 : cmd = some "show-event" <;>
    cases sp <;> cases ap <;> simp [h1, h2]

/-- Witness for C6 amended: a message with no command, snapshot not paused,
element paused. -/
theorem wsSnapshot_reconcile_spec_witness :
    ((none : Option String) ≠ some "progress") ∧
    ((WsAct.play ∈ wsSnapshotActions none false (some true) ↔
        (false = false ∧ true = true)) ∧
      (WsAct.pause ∈ wsSnapshotActions none false (some true) ↔
        (false = true ∧ true = false))) :=
  ⟨by decide, wsSnapshot_reconcile_spec none false true (by decide)⟩

/-- Counterexample to C7 as stated: a request-fail event with the same query
as the searching message at the queue head is not appended at the tail; the
searching lookup runs and the push goes through the replace transition. -/
theorem requestFail_append_counterexample :
    ¬ (handleEvent [msgSearchingA] requestFailA =
        [msgSearchingA] ++ [⟨Sev.error, requestFailA, none⟩]) := by
  decide

/-- C7 amended: cancel-fail, cancel-success, skip-fail and skip-success
events always append a new message at the tail with no lookup and the
default 3000 ms effective timeout; a request-fail event also carries the
default timeout but performs the searching lookup: with no same-query
searching message it appends at the tail, and with a same-query searching
message at the head it goes through the replace transition. -/
theorem handleEvent_append_spec (msgs : List StatusMessage) (e : EventV) :
    (e.type = "cancel-fail" ∨ e.type = "cancel-success" ∨ e.type = "skip-fail" ∨
        e.type = "skip-success" →
      ∃ m, handleEvent msgs e = msgs ++ [m] ∧ m.event = e ∧ m.timeout = none ∧
        effectiveTimeout m = 3000) ∧
    (e.type = "request-fail" → findMsgIdx "searching" e.query msgs = none →
      handleEvent msgs e = msgs ++ [⟨Sev.error, e, none⟩]) ∧
    (e.type = "request-fail" → ∀ h0 t, msgs = h0 :: t → h0.event.type = "searching" →
      h0.event.query = e.query →
      handleEvent msgs e = ⟨Sev.error, e, none⟩ :: t) := by
  refine ⟨?_, ?_, ?_⟩
  · rintro (h | h | h | h)
    · exact ⟨⟨Sev.error, e, none⟩,
        by simp [handleEvent, dispatchEvent, h, pushStatusMessage_no_replace],
        rfl, rfl, rfl⟩
    · exact ⟨⟨Sev.success, e, none⟩,
        by simp [handleEvent, dispatchEvent, h, pushStatusMessage_no_replace],
        rfl, rfl, rfl⟩
    · exact ⟨⟨Sev.error, e, none⟩,
        by simp [handleEvent, dispatchEvent, h, pushStatusMessage_no_replace],
        rfl, rfl, rfl⟩
    · exact ⟨⟨Sev.success, e, none⟩,
        by simp [handleEvent, dispatchEvent, h, pushStatusMessage_no_replace],
        rfl, rfl, rfl⟩
  · intro h hf
    simp [handleEvent, dispatchEvent, h, replaceSearching, hf,
      pushStatusMessage_no_replace]
  · intro h h0 t hm hsh hq
    subst hm
    simp [handleEvent, dispatchEvent, h, replaceSearching, findMsgIdx, hsh, hq,
      pushStatusMessage_replace_cons]

/-- Witness for C7 amended: a cancel-fail event appends behind a pending
query-loading message, and a request-fail event with the query of the
searching message at the head replaces it. -/
theorem handleEvent_append_spec_witness :
    (∃ m, handleEvent [msgLoadingA] ⟨"cancel-fail", none⟩ = [msgLoadingA] ++ [m] ∧
      m.event = ⟨"cancel-fail", none⟩ ∧ m.timeout = none ∧ effectiveTimeout m = 3000) ∧
    handleEvent [msgSearchingA] requestFailA = [⟨Sev.error, requestFailA, none⟩] :=
  ⟨(handleEvent_append_spec [msgLoadingA] ⟨"cancel-fail", none⟩).1 (Or.inl rfl),
   (handleEvent_append_spec [msgSearchingA] requestFailA).2.2 rfl msgSearchingA [] rfl
     rfl rfl⟩

/-- C8: pushing a searching event with query q into an empty queue and then
a query-loading event with the same query yields a queue of length 1 whose
head is the query-loading message, and none of the observable queue states
of the replace transition has an empty head. -/
theorem searching_then_loading_spec (q : String) :
    handleEvent (handleEvent [] ⟨"searching", some q⟩) ⟨"query-loading", some q⟩ =
      [⟨Sev.info, ⟨"query-loading", some q⟩, some 5000⟩] ∧
    (handleEvent (handleEvent [] ⟨"searching", some q⟩)
        ⟨"query-loading", some q⟩).head? =
      some ⟨Sev.info, ⟨"query-loading", some q⟩, some 5000⟩ ∧
    (handleEventStates (handleEvent [] ⟨"searching", some q⟩)
        ⟨"query-loading", some q⟩).all (fun st => !st.isEmpty) = true := by
  have h1 : handleEvent [] ⟨"searching", some q⟩ =
      [⟨Sev.info, ⟨"searching", some q⟩, some 3000⟩] := by
    simp [handleEvent, dispatchEvent, pushStatusMessage]
  rw [h1]
  refine ⟨?_, ?_, ?_⟩ <;>
    simp [handleEvent, handleEventStates, dispatchEvent, replaceSearching, findMsgIdx,
      pushStatusMessage_replace_cons, pushStatusMessageStates]

/-- C10: when a query-success or query-fail event arrives and a searching
message with the same query sits at the queue head, the loading lookup is
short-circuited: the result is the new message in front of the unchanged
tail, so a same-query query-loading message elsewhere in the queue is not
removed and remains queued. -/
theorem querySuccess_shortCircuit_spec (t : List StatusMessage) (h0 : StatusMessage)
    (e : EventV) (hsh : h0.event.type = "searching") (hq : h0.event.query = e.query) :
    (e.type = "query-success" →
      handleEvent (h0 :: t) e = ⟨Sev.success, e, some 6000⟩ :: t) ∧
    (e.type = "query-fail" →
      handleEvent (h0 :: t) e = ⟨Sev.error, e, some 6000⟩ :: t) := by
  constructor <;> intro hty <;>
    simp [handleEvent, dispatchEvent, hty, replaceSearching, findMsgIdx, hsh, hq,
      pushStatusMessage_replace_cons]

/-- Witness for C10: a searching message at the head with a query-loading
message behind it; the query-success event replaces the head and the
query-loading message survives. -/
theorem querySuccess_shortCircuit_spec_witness :
    (msgSearchingA.event.type = "searching" ∧
      msgSearchingA.event.query = successA.query ∧ successA.type = "query-success") ∧
    handleEvent [msgSearchingA, msgLoadingA] successA =
      [⟨Sev.success, successA, some 6000⟩, msgLoadingA] :=
  ⟨⟨rfl, rfl, rfl⟩,
   (querySuccess_shortCircuit_spec [msgLoadingA] msgSearchingA successA rfl rfl).1 rfl⟩

/-- Counterexample to C9 as stated: with the suppression window active, a
message with no command tag whose snapshot differs from local state only in
ordering (same track ids, same current track) does not leave the local
combined list unchanged; the handler overwrites the local order. -/
theorem suppression_delta_counterexample :
    orderingProgressOnlyDelta msgCE stCE ∧ (0 : Nat) < 1000 ∧
    ¬ ((playlistOnCommand 0 1000 stCE msgCE).combinedList = stCE.combinedList) := by
  refine ⟨⟨?_, rfl⟩, by norm_num, by decide⟩
  show ([2, 1] : List Nat).Perm [1, 2]
  exact List.Perm.swap 1 2 []

/-- C9 amended: suppression is keyed on the accompanying command tag rather
than on the snapshot delta. The mirrored current track is updated from every
message. While the window is active, a message tagged status or progress
leaves the local combined list unchanged regardless of its content, and a
message with any other tag or with no command applies its combined list;
after the window has expired, every message applies its combined list. -/
theorem playlistOnCommand_spec (now untilT : Nat) (st : PlaylistLocal)
    (msg : PlaylistMsg) :
    ((playlistOnCommand now untilT st msg).mirroredCurrentId = msg.currentId) ∧
    (now < untilT → (msg.cmd.getD "" = "status" ∨ msg.cmd.getD "" = "progress") →
      (playlistOnCommand now untilT st msg).combinedList = st.combinedList) ∧
    (now < untilT → ¬ (msg.cmd.getD "" = "status" ∨ msg.cmd.getD "" = "progress") →
      (playlistOnCommand now untilT st msg).combinedList = msg.combined_list) ∧
    (¬ now < untilT →
      (playlistOnCommand now untilT st msg).combinedList = msg.combined_list) := by
  simp only [playlistOnCommand]
  split_ifs with h1 h2
  · exact ⟨rfl, fun _ _ => rfl, fun _ hn => absurd h1.2 hn, fun hn => absurd h1.1 hn⟩
  · exact ⟨rfl, fun hw hcmd => absurd ⟨hw, hcmd⟩ h1, fun _ _ => rfl, fun _ => rfl⟩
  · have heq : msg.combined_list = st.combinedList := by
      by_contra hne
      exact h2 hne
    exact ⟨rfl, fun _ _ => rfl, fun _ _ => heq.symm, fun _ => heq.symm⟩

/-- Witness for C9 amended: after the window has expired, the reordered
snapshot applies to the local combined list. -/
theorem playlistOnCommand_spec_witness :
    ¬ ((2000 : Nat) < 1000) ∧
    (playlistOnCommand 2000 1000 stCE msgCE).combinedList = msgCE.combined_list :=
  ⟨by decide, (playlistOnCommand_spec 2000 1000 stCE msgCE).2.2.2 (by decide)⟩

end YumiPlayer
